import Mathlib

/-!
Verification of patisserie (a CLI for pastery.net), `src/main.rs`.

The development shallowly embeds the pure core of the program:
  - `parse_duration` (duration-string parsing, main.rs lines 83-128),
  - the untagged-enum deserialization of `Response` and `Response::into_result`
    (main.rs lines 130-144),
  - the language / title resolution and query-pair construction performed in
    `main` (main.rs lines 167-196).

Machine integers (`u32`) are modelled as `Nat` with explicit bound checks
against `U32_MAX`; Rust's `checked_mul` becomes `checkedMulU32`.  Rust panics
(`expect`) are modelled as an explicit `panicAbort` result constructor, so that
reachability of the panic branch is a provable statement.
-/

namespace Patisserie

/-- `u32::MAX` = 2^32 - 1. -/
def U32_MAX : Nat := 4294967295

/-- `ONE_HUNDRED_YEARS` from `parse_duration`: 60*24*365*100 minutes. -/
def ONE_HUNDRED_YEARS : Nat := 52560000

/-- Structured form of the `anyhow` errors `parse_duration` produces.
`unknownUnit` carries the unrecognized unit (the `InvalidFormat` error);
`tooLong` carries the original input string (the `TooLong` error).
`renderError` below gives the exact message text of main.rs. -/
inductive DurationError where
  | unknownUnit (unit : String)
  | tooLong (input : String)
  deriving DecidableEq

/-- The exact error messages formatted in main.rs lines 93 and 111-114
(`\x27` is the ASCII apostrophe used by the Rust format strings). -/
def renderError : DurationError → String
  | DurationError.unknownUnit u =>
      "Unknown unit `" ++ u ++ "\x27; expected one of `m\x27, `h\x27, `d\x27, `w\x27, `mo\x27, or `y\x27"
  | DurationError.tooLong s =>
      "Duration `" ++ s ++ "\x27 is too long; maximum duration is 100y"

/-- Outcome of `parse_duration`: `Ok`, `Err`, or a process abort through the
`expect` on line 101 (whose panic message is carried). -/
inductive DurationResult where
  | ok (minutes : Nat)
  | err (e : DurationError)
  | panicAbort (msg : String)
  deriving DecidableEq

/-- Rust's `char::is_ascii_digit`. -/
def isAsciiDigit (c : Char) : Bool := '0' ≤ c && c ≤ '9'

/-- Value of a decimal digit run (the digits are already validated). -/
def digitsToNat (cs : List Char) : Nat :=
  cs.foldl (fun acc c => acc * 10 + (c.toNat - 48)) 0

/-- Rust's `str::parse::<u32>` restricted to the strings it is applied to in
`parse_duration` (the prefix before the first non-ASCII-digit character):
fails on the empty string, on a non-digit character, and on overflow past
`u32::MAX`; otherwise returns the decimal value. -/
def parseU32 (cs : List Char) : Option Nat :=
  if cs = [] then none
  else if cs.all isAsciiDigit then
    if digitsToNat cs ≤ U32_MAX then some (digitsToNat cs) else none
  else none

/-- Index of the first character failing `is_ascii_digit`, as in
`s.find(|c: char| !c.is_ascii_digit())` (main.rs line 97).  For the all-digit
prefix every character is one byte, so the byte index Rust returns equals this
character index. -/
def findNonDigitIdx (cs : List Char) : Option Nat :=
  match cs with
  | [] => none
  | c :: rest =>
      if isAsciiDigit c then (findNonDigitIdx rest).map (· + 1) else some 0

/-- The `(amount, unit)` split of main.rs lines 96-99:
split at the first non-digit character, or take the whole string as the
amount with unit `"m"` when every character is a digit. -/
def durationParts (s : String) : String × String :=
  match findNonDigitIdx s.data with
  | some i => (⟨s.data.take i⟩, ⟨s.data.drop i⟩)
  | none => (s, "m")

/-- The unit-to-scale `match` of main.rs lines 103-116, in minutes.
`none` is the fall-through arm that produces the unknown-unit error. -/
def scaleOf (unit : String) : Option Nat :=
  if unit = "m" then some 1
  else if unit = "h" then some 60
  else if unit = "d" then some 1440
  else if unit = "w" then some 10080
  else if unit = "mo" then some 43200
  else if unit = "y" then some 525600
  else none

/-- `u32::checked_mul`. -/
def checkedMulU32 (a b : Nat) : Option Nat :=
  if a * b ≤ U32_MAX then some (a * b) else none

/-- Embedding of `parse_duration` (main.rs lines 83-128).  The `expect` on
line 101 aborts the process when the digit-run parse fails; this is the
`panicAbort` branch, carrying the `expect` message. -/
def parse_duration (s : String) : DurationResult :=
  let amount := (durationParts s).1
  let unit := (durationParts s).2
  match parseU32 amount.data with
  | none => DurationResult.panicAbort "amount is entirely ascii digits"
  | some a =>
    match scaleOf unit with
    | none => DurationResult.err (DurationError.unknownUnit unit)
    | some sc =>
      match checkedMulU32 a sc with
      | none => DurationResult.err (DurationError.tooLong s)
      | some t =>
          if ONE_HUNDRED_YEARS < t then DurationResult.err (DurationError.tooLong s)
          else DurationResult.ok t

/-- JSON values, as far as the response bodies need them.  An object is a
list of key/value pairs in document order. -/
inductive Json where
  | null
  | bool (b : Bool)
  | num (n : Int)
  | str (s : String)
  | arr (elems : List Json)
  | obj (fields : List (String × Json))

/-- The two-variant `Response` enum of main.rs lines 130-135. -/
inductive Response where
  | Paste (url : String)
  | Error (error_msg : String)
  deriving DecidableEq

/-- Reads a struct field from an object's fields the way serde's derived
struct deserializer does for a `String` field named `key` with unknown fields
ignored: the first binding of `key`, provided its value is a JSON string. -/
def getStrField (fields : List (String × Json)) (key : String) : Option String :=
  match fields.lookup key with
  | some (Json.str v) => some v
  | _ => none

/-- serde_json's error message when no variant of an `#[serde(untagged)]`
enum matches the input. -/
def untaggedNoMatchMsg : String :=
  "data did not match any variant of untagged enum Response"

/-- The `#[serde(untagged)]` deserialization of `Response` (main.rs lines
130-135): try the variants in declaration order — `Paste { url }` first, then
`Error { error_msg }` — and fail if neither struct shape matches.  A struct
variant matches an object that binds its field to a JSON string; other fields
are ignored (serde's default). -/
def deserializeResponse (j : Json) : Except String Response :=
  match j with
  | Json.obj fields =>
    match getStrField fields "url" with
    | some url => Except.ok (Response.Paste url)
    | none =>
      match getStrField fields "error_msg" with
      | some msg => Except.ok (Response.Error msg)
      | none => Except.error untaggedNoMatchMsg
  | _ => Except.error untaggedNoMatchMsg

/-- `Response::into_result` (main.rs lines 138-143): a `Paste` yields the URL,
an `Error` yields `error_msg` as the error. -/
def Response.into_result : Response → Except String String
  | Response.Paste url => Except.ok url
  | Response.Error msg => Except.error msg

/-- The language resolution of main.rs lines 167-170:
`options.language.or_else(|| options.path.as_deref().and_then(guess_language)).unwrap_or("autodetect")`.
`guess_language` lives in the `language` module and is passed in abstractly as
`guess`. -/
def resolveLanguage (language : Option String) (path : Option String)
    (guess : String → Option String) : String :=
  (language.orElse (fun _ => path.bind guess)).getD "autodetect"

/-- Splits a character list at every `/`, keeping empty components. -/
def splitSlash (cs : List Char) : List (List Char) :=
  match cs with
  | [] => [[]]
  | c :: rest =>
      let r := splitSlash rest
      if c = '/' then [] :: r
      else
        match r with
        | h :: t => (c :: h) :: t
        | [] => [[c]]

/-- Models camino's `Utf8Path::file_name` (which follows
`std::path::Path::file_name`): the last path component after dropping empty
and `.` components, and no file name when that component is `..` or the path
has no components. -/
def fileName (p : String) : Option String :=
  let comps := (splitSlash p.data).filter
    (fun c => decide (c ≠ [] ∧ c ≠ ['.']))
  match comps.getLast? with
  | none => none
  | some c => if c = ['.', '.'] then none else some ⟨c⟩

/-- The title resolution of main.rs lines 172-178: the explicit title when
set, otherwise the path's file name when a path is set and has one. -/
def resolveTitle (title : Option String) (path : Option String) : Option String :=
  title.orElse (fun _ => path.bind fileName)

/-- The inputs `main` feeds into query construction (a slice of the parsed
`Options` plus the API key): `duration` is the parsed minute count, `language`
the already-resolved token. -/
structure BuildInputs where
  api_key : String
  duration : Nat
  language : String
  title : Option String
  max_views : Option Nat
  path : Option String

/-- The query pairs appended in main.rs lines 184-195, in order: `api_key`,
`duration`, `language` always; `title` only when `resolveTitle` yields one;
`max_views` only when supplied. -/
def buildQuery (o : BuildInputs) : List (String × String) :=
  [("api_key", o.api_key),
   ("duration", toString o.duration),
   ("language", o.language)]
  ++ (match resolveTitle o.title o.path with
      | some t => [("title", t)]
      | none => [])
  ++ (match o.max_views with
      | some v => [("max_views", toString v)]
      | none => [])

/-! ## Helper lemmas about the duration parser -/

theorem findNonDigitIdx_all_digits (cs : List Char)
    (h : ∀ c ∈ cs, isAsciiDigit c = true) : findNonDigitIdx cs = none := by
  induction cs with
  | nil => rfl
  | cons c rest ih =>
      simp only [findNonDigitIdx, h c (List.mem_cons_self c rest), if_true]
      rw [ih (fun x hx => h x (List.mem_cons_of_mem c hx))]
      rfl

theorem findNonDigitIdx_append (ds : List Char) (c : Char) (rest : List Char)
    (hds : ∀ x ∈ ds, isAsciiDigit x = true) (hc : isAsciiDigit c = false) :
    findNonDigitIdx (ds ++ c :: rest) = some ds.length := by
  induction ds with
  | nil => simp [findNonDigitIdx, hc]
  | cons d ds ih =>
      simp only [List.cons_append, findNonDigitIdx,
        hds d (List.mem_cons_self d ds), if_true]
      simp only [List.append_eq]
      rw [ih (fun x hx => hds x (List.mem_cons_of_mem d hx))]
      rfl

theorem parseU32_of_digits (cs : List Char) (hne : cs ≠ [])
    (hdig : ∀ c ∈ cs, isAsciiDigit c = true)
    (hle : digitsToNat cs ≤ U32_MAX) :
    parseU32 cs = some (digitsToNat cs) := by
  unfold parseU32
  rw [if_neg hne, if_pos (by simpa [List.all_eq_true] using hdig), if_pos hle]

theorem durationParts_all_digits (s : String)
    (h : ∀ c ∈ s.data, isAsciiDigit c = true) : durationParts s = (s, "m") := by
  simp [durationParts, findNonDigitIdx_all_digits s.data h]

theorem durationParts_split (ds : List Char) (c : Char) (rest : List Char)
    (hds : ∀ x ∈ ds, isAsciiDigit x = true) (hc : isAsciiDigit c = false) :
    durationParts ⟨ds ++ c :: rest⟩ = (⟨ds⟩, ⟨c :: rest⟩) := by
  simp only [durationParts, findNonDigitIdx_append ds c rest hds hc]
  rw [List.take_left, List.drop_left]

theorem scaleOf_inv (u : String) (sc : Nat) (h : scaleOf u = some sc) :
    (u = "m" ∧ sc = 1) ∨ (u = "h" ∧ sc = 60) ∨ (u = "d" ∧ sc = 1440) ∨
    (u = "w" ∧ sc = 10080) ∨ (u = "mo" ∧ sc = 43200) ∨ (u = "y" ∧ sc = 525600) := by
  unfold scaleOf at h
  split_ifs at h with h1 h2 h3 h4 h5 h6 <;> simp_all

theorem scaleOf_eq_none (u : String)
    (h : u ∉ ["m", "h", "d", "w", "mo", "y"]) : scaleOf u = none := by
  simp only [List.mem_cons, List.mem_singleton, not_or] at h
  obtain ⟨h1, h2, h3, h4, h5, h6⟩ := h
  simp [scaleOf, h1, h2, h3, h4, h5, h6]

/-! ## Claim theorems for the duration parser -/

/-- Computation rule for `parse_duration` on the success path, phrased
through the split. -/
theorem parse_duration_eq_of_parts (s amount unit : String) (a sc : Nat)
    (hparts : durationParts s = (amount, unit))
    (hp : parseU32 amount.data = some a) (hs : scaleOf unit = some sc)
    (hle : a * sc ≤ U32_MAX) (hle2 : ¬ (ONE_HUNDRED_YEARS < a * sc)) :
    parse_duration s = DurationResult.ok (a * sc) := by
  simp only [parse_duration, hparts, hp, hs, checkedMulU32, if_pos hle]
  rw [if_neg hle2]

/-- Claim C1: for every duration string of the form digits ++ unit with a
non-empty all-digit prefix and a unit among m, h, d, w, mo, y, whose product
digits × scale stays within 52,560,000 (hence within `u32`), `parse_duration`
returns exactly digits × scale, where scale is the map m→1, h→60, d→1440,
w→10080, mo→43200, y→525600; in particular the two-letter unit "mo" is
matched as the whole suffix. -/
theorem parse_duration_correct_on_valid (ds : List Char) (unit : String) (sc : Nat)
    (hne : ds ≠ []) (hdig : ∀ c ∈ ds, isAsciiDigit c = true)
    (hunit : (unit, sc) ∈
      [("m", 1), ("h", 60), ("d", 1440), ("w", 10080), ("mo", 43200), ("y", 525600)])
    (hbound : digitsToNat ds * sc ≤ 52560000) :
    parse_duration ⟨ds ++ unit.data⟩ = DurationResult.ok (digitsToNat ds * sc) := by
  simp only [List.mem_cons, List.not_mem_nil, or_false] at hunit
  rcases hunit with h | h | h | h | h | h <;> rw [Prod.mk.injEq] at h <;>
    obtain ⟨hu, hs⟩ := h <;> subst hu <;> subst hs
  · exact parse_duration_eq_of_parts _ ⟨ds⟩ "m" _ _
      (durationParts_split ds 'm' [] hdig (by decide))
      (parseU32_of_digits ds hne hdig (by unfold U32_MAX; omega)) rfl
      (by unfold U32_MAX; omega) (by unfold ONE_HUNDRED_YEARS; omega)
  · exact parse_duration_eq_of_parts _ ⟨ds⟩ "h" _ _
      (durationParts_split ds 'h' [] hdig (by decide))
      (parseU32_of_digits ds hne hdig (by unfold U32_MAX; omega)) rfl
      (by unfold U32_MAX; omega) (by unfold ONE_HUNDRED_YEARS; omega)
  · exact parse_duration_eq_of_parts _ ⟨ds⟩ "d" _ _
      (durationParts_split ds 'd' [] hdig (by decide))
      (parseU32_of_digits ds hne hdig (by unfold U32_MAX; omega)) rfl
      (by unfold U32_MAX; omega) (by unfold ONE_HUNDRED_YEARS; omega)
  · exact parse_duration_eq_of_parts _ ⟨ds⟩ "w" _ _
      (durationParts_split ds 'w' [] hdig (by decide))
      (parseU32_of_digits ds hne hdig (by unfold U32_MAX; omega)) rfl
      (by unfold U32_MAX; omega) (by unfold ONE_HUNDRED_YEARS; omega)
  · exact parse_duration_eq_of_parts _ ⟨ds⟩ "mo" _ _
      (durationParts_split ds 'm' ['o'] hdig (by decide))
      (parseU32_of_digits ds hne hdig (by unfold U32_MAX; omega)) rfl
      (by unfold U32_MAX; omega) (by unfold ONE_HUNDRED_YEARS; omega)
  · exact parse_duration_eq_of_parts _ ⟨ds⟩ "y" _ _
      (durationParts_split ds 'y' [] hdig (by decide))
      (parseU32_of_digits ds hne hdig (by unfold U32_MAX; omega)) rfl
      (by unfold U32_MAX; omega) (by unfold ONE_HUNDRED_YEARS; omega)

/-- Witness for C1: "12mo" parses to 12 × 43200 = 518400 minutes. -/
theorem parse_duration_correct_on_valid_witness :
    parse_duration "12mo" = DurationResult.ok 518400 := by
  have h := parse_duration_correct_on_valid ['1', '2'] "mo" 43200
    (by decide) (by decide) (by decide) (by decide)
  simpa using h

/-- Claim C10: on a string with no non-ASCII-digit character the whole string
is taken as the amount and the unit defaults to "m", so the result is the
parsed number itself whenever it is in range; in particular "90" ↦ 90,
"1d" ↦ 1440, "2h" ↦ 120, "1y" ↦ 525600. -/
theorem parse_duration_bare_digits :
    (∀ s : String, (∀ c ∈ s.data, isAsciiDigit c = true) →
       durationParts s = (s, "m") ∧
       ∀ n, parseU32 s.data = some n → n ≤ 52560000 →
         parse_duration s = DurationResult.ok n) ∧
    parse_duration "90" = DurationResult.ok 90 ∧
    parse_duration "1d" = DurationResult.ok 1440 ∧
    parse_duration "2h" = DurationResult.ok 120 ∧
    parse_duration "1y" = DurationResult.ok 525600 := by
  refine ⟨?_, by decide, by decide, by decide, by decide⟩
  intro s h
  refine ⟨durationParts_all_digits s h, ?_⟩
  intro n hp hn
  have hmain := parse_duration_eq_of_parts s s "m" n 1
    (durationParts_all_digits s h) hp rfl
    (by unfold U32_MAX; omega) (by unfold ONE_HUNDRED_YEARS; omega)
  simpa using hmain

/-- Witness for C10 at the all-digit input "7". -/
theorem parse_duration_bare_digits_witness :
    parse_duration "7" = DurationResult.ok 7 :=
  (parse_duration_bare_digits.1 "7" (by decide)).2 7 (by decide) (by decide)

/-- Claim C5 (amended): every minute count `parse_duration` successfully
returns is at most 52,560,000.  (The claimed lower bound 1 fails: "0" parses
successfully to 0, see the counterexample.) -/
theorem parse_duration_success_bound (s : String) (n : Nat)
    (h : parse_duration s = DurationResult.ok n) : n ≤ 52560000 := by
  simp only [parse_duration] at h
  cases hp : parseU32 (durationParts s).1.data with
  | none => rw [hp] at h; simp at h
  | some a =>
    rw [hp] at h; dsimp only at h
    cases hs : scaleOf (durationParts s).2 with
    | none => rw [hs] at h; simp at h
    | some sc =>
      rw [hs] at h; dsimp only at h
      cases hm : checkedMulU32 a sc with
      | none => rw [hm] at h; simp at h
      | some t =>
        rw [hm] at h; dsimp only at h
        split at h
        · simp at h
        · rename_i hgt
          simp only [DurationResult.ok.injEq] at h
          subst h
          unfold ONE_HUNDRED_YEARS at hgt
          omega

/-- Witness for C5 (amended) at "1d". -/
theorem parse_duration_success_bound_witness :
    parse_duration "1d" = DurationResult.ok 1440 ∧ 1440 ≤ 52560000 :=
  ⟨by decide, parse_duration_success_bound "1d" 1440 (by decide)⟩

/-- Counterexample to C5 as stated: "0" parses successfully to 0 minutes,
violating the claimed lower bound 1 ≤ value. -/
theorem parse_duration_zero_accepted :
    parse_duration "0" = DurationResult.ok 0 ∧ ¬ (1 ≤ (0 : Nat)) := by decide

/-- Claim C3: `parse_duration` fails with the `TooLong` error — whose message
carries the original input — exactly when the amount parses and the unit is
recognized but the checked multiplication amount × scale overflows `u32` or
the product exceeds 52,560,000; in particular "101y" fails with `TooLong`. -/
theorem parse_duration_too_long_iff :
    (∀ s : String,
       (parse_duration s = DurationResult.err (DurationError.tooLong s) ↔
         ∃ a sc, parseU32 (durationParts s).1.data = some a ∧
           scaleOf (durationParts s).2 = some sc ∧
           (U32_MAX < a * sc ∨ ONE_HUNDRED_YEARS < a * sc)) ∧
       renderError (DurationError.tooLong s) =
         "Duration `" ++ s ++ "\x27 is too long; maximum duration is 100y") ∧
    parse_duration "101y" = DurationResult.err (DurationError.tooLong "101y") := by
  refine ⟨fun s => ⟨⟨?_, ?_⟩, rfl⟩, by decide⟩
  · intro h
    simp only [parse_duration] at h
    cases hp : parseU32 (durationParts s).1.data with
    | none => rw [hp] at h; simp at h
    | some a =>
      rw [hp] at h; dsimp only at h
      cases hs : scaleOf (durationParts s).2 with
      | none => rw [hs] at h; simp at h
      | some sc =>
        rw [hs] at h; dsimp only at h
        refine ⟨a, sc, rfl, rfl, ?_⟩
        cases hm : checkedMulU32 a sc with
        | none =>
          left
          unfold checkedMulU32 at hm
          by_cases hle : a * sc ≤ U32_MAX
          · rw [if_pos hle] at hm; cases hm
          · omega
        | some t =>
          rw [hm] at h; dsimp only at h
          split at h
          · rename_i hgt
            right
            unfold checkedMulU32 at hm
            by_cases hle : a * sc ≤ U32_MAX
            · rw [if_pos hle] at hm
              injection hm with ht
              subst ht
              exact hgt
            · rw [if_neg hle] at hm; cases hm
          · simp at h
  · rintro ⟨a, sc, hp, hs, hcond⟩
    simp only [parse_duration, hp, hs]
    rcases hcond with hover | hbig
    · have hm : checkedMulU32 a sc = none := by
        unfold checkedMulU32; rw [if_neg (by omega)]
      simp only [hm]
    · by_cases hle : a * sc ≤ U32_MAX
      · have hm : checkedMulU32 a sc = some (a * sc) := by
          unfold checkedMulU32; rw [if_pos hle]
        simp only [hm, if_pos hbig]
      · have hm : checkedMulU32 a sc = none := by
          unfold checkedMulU32; rw [if_neg hle]
        simp only [hm]

/-- Witness for C3: "101y" (101 × 525600 = 53,085,600 > 52,560,000) hits the
`TooLong` error through the characterization. -/
theorem parse_duration_too_long_iff_witness :
    parse_duration "101y" = DurationResult.err (DurationError.tooLong "101y") :=
  (parse_duration_too_long_iff.1 "101y").1.mpr
    ⟨101, 525600, by decide, by decide, Or.inr (by decide)⟩

/-- Claim C6 (amended): whenever the leading digit run parses (non-empty and
within `u32`) and the remaining suffix is non-empty and none of m, h, d, w,
mo, y, `parse_duration` fails with the unknown-unit error naming that suffix,
whose message lists the accepted units; in particular "5x" fails naming "x".
(As stated over all inputs the claim fails at "x", where the digit parse
panics first — see the counterexample.) -/
theorem parse_duration_unknown_unit :
    (∀ s : String,
       parseU32 (durationParts s).1.data ≠ none →
       (durationParts s).2 ≠ "" →
       (durationParts s).2 ∉ ["m", "h", "d", "w", "mo", "y"] →
       parse_duration s =
         DurationResult.err (DurationError.unknownUnit (durationParts s).2)) ∧
    (∀ u : String, renderError (DurationError.unknownUnit u) =
       "Unknown unit `" ++ u ++
         "\x27; expected one of `m\x27, `h\x27, `d\x27, `w\x27, `mo\x27, or `y\x27") ∧
    parse_duration "5x" = DurationResult.err (DurationError.unknownUnit "x") := by
  refine ⟨?_, fun u => rfl, by decide⟩
  intro s h1 h2 h3
  cases hp : parseU32 (durationParts s).1.data with
  | none => exact absurd hp h1
  | some a =>
      simp only [parse_duration, hp, scaleOf_eq_none ((durationParts s).2) h3]

/-- Witness for C6 (amended) at "5x". -/
theorem parse_duration_unknown_unit_witness :
    parse_duration "5x" =
      DurationResult.err (DurationError.unknownUnit (durationParts "5x").2) :=
  parse_duration_unknown_unit.1 "5x" (by decide) (by decide) (by decide)

/-- Counterexample to C6 as stated: at input "x" the suffix after the (empty)
digit run is "x", which is not an accepted unit, yet `parse_duration` does not
produce the unknown-unit error — the digit parse's `expect` panics first. -/
theorem parse_duration_unknown_unit_counterexample :
    (durationParts "x").2 = "x" ∧
    (durationParts "x").2 ∉ ["m", "h", "d", "w", "mo", "y"] ∧
    parse_duration "x" = DurationResult.panicAbort "amount is entirely ascii digits" ∧
    parse_duration "x" ≠ DurationResult.err (DurationError.unknownUnit "x") := by
  decide

/-- Claim C4 is violated by the code: the panic branch behind the `expect` on
main.rs line 101 is reachable.  The inputs "h" and "" leave an empty digit
run, and "4294967296m" leaves a digit run past `u32::MAX`; in each case
`str::parse::<u32>` fails and the `expect` aborts the process. -/
theorem parse_duration_panic_reachable :
    parse_duration "h" = DurationResult.panicAbort "amount is entirely ascii digits" ∧
    parse_duration "" = DurationResult.panicAbort "amount is entirely ascii digits" ∧
    parse_duration "4294967296m" =
      DurationResult.panicAbort "amount is entirely ascii digits" := by
  decide

/-! ## Claim theorems for the response interpreter and request building -/

/-- Claim C2: an object with a string field `url` deserializes to the success
variant carrying that URL; an object with a string field `error_msg` (and no
string `url` field, which would win per the variant order — see C7)
deserializes to the failure variant carrying that message; anything matching
neither struct shape fails with serde's untagged-mismatch error, including
the three response bodies from the spec. -/
theorem response_shapes :
    (∀ fields u, getStrField fields "url" = some u →
       deserializeResponse (Json.obj fields) = Except.ok (Response.Paste u) ∧
       (Response.Paste u).into_result = Except.ok u) ∧
    (∀ fields m, getStrField fields "url" = none →
       getStrField fields "error_msg" = some m →
       deserializeResponse (Json.obj fields) = Except.ok (Response.Error m) ∧
       (Response.Error m).into_result = Except.error m) ∧
    (∀ fields, getStrField fields "url" = none →
       getStrField fields "error_msg" = none →
       deserializeResponse (Json.obj fields) = Except.error untaggedNoMatchMsg) ∧
    (∀ j : Json, (∀ fields, j ≠ Json.obj fields) →
       deserializeResponse j = Except.error untaggedNoMatchMsg) ∧
    deserializeResponse (Json.obj [("url", Json.str "https://pastery.net/abc")]) =
      Except.ok (Response.Paste "https://pastery.net/abc") ∧
    deserializeResponse (Json.obj [("error_msg", Json.str "bad key")]) =
      Except.ok (Response.Error "bad key") ∧
    deserializeResponse (Json.obj [("foo", Json.num 1)]) =
      Except.error untaggedNoMatchMsg := by
  refine ⟨?_, ?_, ?_, ?_, rfl, rfl, rfl⟩
  · intro fields u h
    exact ⟨by simp [deserializeResponse, h], rfl⟩
  · intro fields m h1 h2
    exact ⟨by simp [deserializeResponse, h1, h2], rfl⟩
  · intro fields h1 h2
    simp [deserializeResponse, h1, h2]
  · intro j hj
    cases j with
    | obj fields => exact absurd rfl (hj fields)
    | null => rfl
    | bool b => rfl
    | num n => rfl
    | str s => rfl
    | arr xs => rfl

/-- Witness for C2 at the three concrete shapes. -/
theorem response_shapes_witness :
    deserializeResponse (Json.obj [("url", Json.str "u1")]) =
      Except.ok (Response.Paste "u1") ∧
    deserializeResponse (Json.obj [("error_msg", Json.str "e1")]) =
      Except.ok (Response.Error "e1") ∧
    deserializeResponse Json.null = Except.error untaggedNoMatchMsg :=
  ⟨(response_shapes.1 [("url", Json.str "u1")] "u1" rfl).1,
   (response_shapes.2.1 [("error_msg", Json.str "e1")] "e1" rfl rfl).1,
   response_shapes.2.2.2.1 Json.null (fun fields h => Json.noConfusion h)⟩

/-- Claim C7: the untagged deserialization tries the `Paste` shape before
`Error`, so an object carrying string fields for both `url` and `error_msg`
yields success with the URL, not failure. -/
theorem response_url_wins (fields : List (String × Json)) (u m : String)
    (hu : getStrField fields "url" = some u)
    (hm : getStrField fields "error_msg" = some m) :
    deserializeResponse (Json.obj fields) = Except.ok (Response.Paste u) := by
  simp [deserializeResponse, hu]

/-- Witness for C7 at an object with both fields. -/
theorem response_url_wins_witness :
    deserializeResponse
        (Json.obj [("url", Json.str "a"), ("error_msg", Json.str "b")]) =
      Except.ok (Response.Paste "a") :=
  response_url_wins [("url", Json.str "a"), ("error_msg", Json.str "b")] "a" "b"
    rfl rfl

/-- Claim C8: the language query value is the explicit token when supplied,
otherwise the successful guess from the path, otherwise "autodetect". -/
theorem resolveLanguage_precedence (language : Option String)
    (path : Option String) (guess : String → Option String) :
    (∀ l, language = some l → resolveLanguage language path guess = l) ∧
    (language = none → ∀ p g, path = some p → guess p = some g →
       resolveLanguage language path guess = g) ∧
    (language = none → path = none →
       resolveLanguage language path guess = "autodetect") ∧
    (language = none → ∀ p, path = some p → guess p = none →
       resolveLanguage language path guess = "autodetect") := by
  refine ⟨?_, ?_, ?_, ?_⟩
  · rintro l rfl; rfl
  · rintro rfl p g rfl hg
    show (guess p).getD "autodetect" = g
    rw [hg]; rfl
  · rintro rfl rfl; rfl
  · rintro rfl p rfl hg
    show (guess p).getD "autodetect" = "autodetect"
    rw [hg]; rfl

/-- Witness for C8 at each precedence level. -/
theorem resolveLanguage_precedence_witness :
    resolveLanguage (some "rust") (some "a.py") (fun _ => some "python") = "rust" ∧
    resolveLanguage none (some "a.py") (fun _ => some "python") = "python" ∧
    resolveLanguage none none (fun _ => some "python") = "autodetect" ∧
    resolveLanguage none (some "README") (fun _ => none) = "autodetect" :=
  ⟨(resolveLanguage_precedence _ _ _).1 "rust" rfl,
   (resolveLanguage_precedence _ _ _).2.1 rfl "a.py" "python" rfl rfl,
   (resolveLanguage_precedence _ _ _).2.2.1 rfl rfl,
   (resolveLanguage_precedence _ _ _).2.2.2 rfl "README" rfl rfl⟩

/-- Claim C9: with no explicit title but a path, the built query's `title`
parameter is the path's file name (path "notes.txt" gives title "notes.txt");
with neither, no `title` parameter appears; and with `max_views` unset no
`max_views` parameter appears in the query at all. -/
theorem buildQuery_title_and_max_views :
    (∀ (o : BuildInputs) (p n : String), o.title = none → o.path = some p →
       fileName p = some n → (buildQuery o).lookup "title" = some n) ∧
    (∀ o : BuildInputs, o.title = none → o.path = none →
       "title" ∉ (buildQuery o).map Prod.fst) ∧
    (∀ o : BuildInputs, o.max_views = none →
       "max_views" ∉ (buildQuery o).map Prod.fst) ∧
    fileName "notes.txt" = some "notes.txt" := by
  refine ⟨?_, ?_, ?_, by decide⟩
  · intro o p n ht hp hn
    have hres : resolveTitle o.title o.path = some n := by
      rw [ht, hp]; show fileName p = some n; exact hn
    cases hmv : o.max_views with
    | none => simp only [buildQuery, hres, hmv]; rfl
    | some v => simp only [buildQuery, hres, hmv]; rfl
  · intro o ht hp
    have hres : resolveTitle o.title o.path = none := by rw [ht, hp]; rfl
    cases hmv : o.max_views with
    | none => simp [buildQuery, hres, hmv]
    | some v => simp [buildQuery, hres, hmv]
  · intro o hmv
    cases hres : resolveTitle o.title o.path with
    | none => simp [buildQuery, hres, hmv]
    | some t => simp [buildQuery, hres, hmv]

/-- Witness for C9 at a concrete option set with path "notes.txt". -/
theorem buildQuery_title_and_max_views_witness :
    (buildQuery ⟨"k", 1440, "autodetect", none, none, some "notes.txt"⟩).lookup
        "title" = some "notes.txt" ∧
    "max_views" ∉
      (buildQuery ⟨"k", 1440, "autodetect", none, none, some "notes.txt"⟩).map
        Prod.fst :=
  ⟨buildQuery_title_and_max_views.1 _ "notes.txt" "notes.txt" rfl rfl (by decide),
   buildQuery_title_and_max_views.2.2.1 _ rfl⟩

end Patisserie
